import Mathlib

/-!
Verification of the transportapp reservation/payment core.

The definitions below are a shallow embedding of the JavaScript source:
  - src/routes/public.js : public reservation flow, Stripe webhook, tickets
  - src/routes/admin router (unnamed/part_001) : mark-paid, cancel, trip enable/disable
  - server.js : raw-body capture for webhook signature verification
  - sql/20260209_daily_folio_sequence.sql : folio_date/daily_seq columns and unique index

SQL rows become Lean structures, the database becomes lists of rows, and each
route handler becomes a function from database state (plus the request) to the
new state and the HTTP outcome.  JavaScript number quirks that matter to the
claims (NaN propagation through Math.min/Math.max, falsy defaulting with ||)
are modelled explicitly.
-/

namespace Transport

/-- Reservation status values used by the source
(PENDING_PAYMENT, PAY_AT_BOARDING, PAID, CANCELLED, EXPIRED). -/
inductive RStatus
  | PENDING_PAYMENT
  | PAY_AT_BOARDING
  | PAID
  | CANCELLED
  | EXPIRED
deriving DecidableEq, Repr

/-- Reservation type: ALLOWED_TYPES = {PASSENGER, PACKAGE} (public.js:16). -/
inductive RType
  | PASSENGER
  | PACKAGE
deriving DecidableEq, Repr

/-- ALLOWED_PAYMENT_METHODS = {TAQUILLA, TRANSFERENCIA, ONLINE} (public.js:15). -/
inductive PayMethod
  | TAQUILLA
  | TRANSFERENCIA
  | ONLINE
deriving DecidableEq, Repr

/-- Trip status: OPEN or CANCELLED. -/
inductive TripStatus
  | OPEN
  | CANCELLED
deriving DecidableEq, Repr

/-- System max capacity: `const MAX_CAP = 6` (public.js:81, admin router:10). -/
def MAX_CAP : ℕ := 6

/-- A JavaScript number as the seats pipeline can produce it: NaN or a rational. -/
inductive JsNum
  | nan
  | val (q : ℚ)
deriving DecidableEq, Repr

/-- `Math.min` with JavaScript NaN propagation: NaN if either argument is NaN. -/
def jsMin : JsNum → JsNum → JsNum
  | .val a, .val b => .val (min a b)
  | _, _ => .nan

/-- `Math.max` with JavaScript NaN propagation: NaN if either argument is NaN. -/
def jsMax : JsNum → JsNum → JsNum
  | .val a, .val b => .val (max a b)
  | _, _ => .nan

/-- JavaScript `<` on numbers: false whenever either side is NaN. -/
def jsLt : JsNum → JsNum → Bool
  | .val a, .val b => decide (a < b)
  | _, _ => false

/-- JavaScript `!==` between a roster length and a seats number:
true whenever the seats side is NaN. -/
def jsNeLen (n : ℕ) : JsNum → Bool
  | .val q => decide (¬ ((n : ℚ) = q))
  | .nan => true

/-- The `seats` field of the request body as the handler can observe it.
From a urlencoded form the value is a string (or absent); `numericStr q` stands
for any value `Number` converts to the numeric value `q` (this also covers a
JSON number), `nonNumericStr` for a non-empty string `Number` turns into NaN. -/
inductive SeatsField
  | missing
  | emptyStr
  | numericStr (q : ℚ)
  | nonNumericStr
deriving DecidableEq, Repr

/-- `Number(req.body.seats || 1)` (public.js:384): `undefined` and `""` are
falsy so `|| 1` kicks in; any other string goes through `Number`. -/
def seatsWantedNum : SeatsField → JsNum
  | .missing => .val 1
  | .emptyStr => .val 1
  | .numericStr q => .val q
  | .nonNumericStr => .nan

/-- Seats normalization in POST /reserve (public.js:382-389):
PASSENGER: `Math.max(1, Math.min(MAX_CAP, wanted))`; PACKAGE: `seats = 0`. -/
def normalizeSeats (t : RType) (x : SeatsField) : JsNum :=
  if t = RType.PASSENGER then
    jsMax (.val 1) (jsMin (.val (MAX_CAP : ℚ)) (seatsWantedNum x))
  else
    .val 0

/-- A row of transporte_reservations, restricted to the columns the claims
touch.  `seats` is kept as a rational because the handler writes the JavaScript
number straight into the INSERT.  `rosterCount` is the number of
transporte_reservation_passengers rows for this reservation (`none` when there
are no rows, matching the LEFT JOIN in computeAvailable).  Price-snapshot and
contact columns are omitted: no claim mentions them. -/
structure Reservation where
  id : ℕ
  tripId : ℕ
  rtype : RType
  seats : ℚ
  status : RStatus
  paymentMethod : PayMethod
  rosterCount : Option ℕ
  paidAt : Option ℕ
  stripeSessionId : Option String
  stripePaymentIntentId : Option String
deriving DecidableEq, Repr

/-- Status set counted as seat-consuming in computeAvailable (public.js:232):
`status IN ('PENDING_PAYMENT', 'PAY_AT_BOARDING', 'PAID')`. -/
def isActiveStatus (s : RStatus) : Bool :=
  s = RStatus.PENDING_PAYMENT ∨ s = RStatus.PAY_AT_BOARDING ∨ s = RStatus.PAID

/-- Seat weight of one reservation row (public.js:233):
`COALESCE(rp.passenger_count, NULLIF(r.seats, 0), 1)`. -/
def seatWeight (r : Reservation) : ℚ :=
  match r.rosterCount with
  | some n => (n : ℚ)
  | none => if r.seats = 0 then 1 else r.seats

/-- The CASE expression of computeAvailable (public.js:229-235): a reservation
contributes its seat weight only when it is a PASSENGER one in an active
status, else 0. -/
def caseSeat (r : Reservation) : ℚ :=
  if r.rtype = RType.PASSENGER ∧ isActiveStatus r.status then seatWeight r else 0

/-- `SUM(CASE ...)` over the reservations joined to trip `tid`. -/
def activeSeats (tid : ℕ) (rs : List Reservation) : ℚ :=
  rs.foldr (fun r a => (if r.tripId = tid then caseSeat r else 0) + a) 0

/-- `LEAST(dt.capacity_passengers, MAX_CAP)` (public.js:228). -/
def effectiveCapacity (cap : ℕ) : ℚ :=
  min (cap : ℚ) (MAX_CAP : ℚ)

/-- computeAvailable (public.js:223-254):
`GREATEST(LEAST(capacity, MAX_CAP) - COALESCE(SUM(CASE ...), 0), 0)`. -/
def computeAvailable (cap : ℕ) (tid : ℕ) (rs : List Reservation) : ℚ :=
  max (effectiveCapacity cap - activeSeats tid rs) 0

/-- Initial status (public.js:380):
`payment_method === "TAQUILLA" ? "PAY_AT_BOARDING" : "PENDING_PAYMENT"`. -/
def initialStatus (pm : PayMethod) : RStatus :=
  if pm = PayMethod.TAQUILLA then RStatus.PAY_AT_BOARDING else RStatus.PENDING_PAYMENT

/-- The state of one trip as POST /reserve sees it once the trip row is locked:
the `FOR UPDATE` on the trip row serializes every writer of this trip, so the
handler body runs atomically against this state. -/
structure TripState where
  tripStatus : TripStatus
  cap : ℕ
  tripId : ℕ
  reservations : List Reservation
  nextId : ℕ
deriving Repr

/-- The request fields of POST /reserve that the claims depend on, after the
initial trims (customer_name, package_details trimmed; passenger_names trimmed
and filtered non-empty). -/
structure ReserveInput where
  customerName : String
  rtype : RType
  packageDetails : String
  paymentMethod : PayMethod
  seatsField : SeatsField
  passengerNames : List String
deriving Repr

/-- Failure modes of the POST /reserve transaction body. -/
inductive ReserveError
  | tripDisabled
  | capacityExceeded
  | nameMissing
  | packageDetailsMissing
  | rosterMismatch
  | insertFailed
deriving DecidableEq, Repr

/-- POST /reserve transaction body (public.js:396-524), from the point where
the trip row is locked.  Checks run in source order: trip OPEN, capacity for
PASSENGER (`available < seats` is a JavaScript comparison, hence false for NaN
seats), contact name, PACKAGE details / roster count, then the INSERT.  A NaN
seats value cannot be serialized into the INT seats column: the INSERT throws
and the catch rolls the transaction back, leaving the state unchanged
(`insertFailed`).  On any error the transaction rolls back (state unchanged). -/
def createReservation (s : TripState) (inp : ReserveInput) :
    TripState × Except ReserveError ℕ :=
  let seatsN := normalizeSeats inp.rtype inp.seatsField
  if s.tripStatus ≠ TripStatus.OPEN then (s, .error .tripDisabled)
  else
    let avail := computeAvailable s.cap s.tripId s.reservations
    if inp.rtype = RType.PASSENGER ∧ jsLt (.val avail) seatsN then
      (s, .error .capacityExceeded)
    else if inp.customerName = "" then (s, .error .nameMissing)
    else if inp.rtype = RType.PACKAGE ∧ inp.packageDetails = "" then
      (s, .error .packageDetailsMissing)
    else
      let names := if inp.rtype = RType.PACKAGE then [] else inp.passengerNames
      if inp.rtype = RType.PASSENGER ∧ names ≠ [] ∧ jsNeLen names.length seatsN then
        (s, .error .rosterMismatch)
      else
        match seatsN with
        | .nan => (s, .error .insertFailed)
        | .val q =>
          let r : Reservation :=
            { id := s.nextId
              tripId := s.tripId
              rtype := inp.rtype
              seats := q
              status := initialStatus inp.paymentMethod
              paymentMethod := inp.paymentMethod
              rosterCount :=
                if inp.rtype = RType.PASSENGER ∧ names ≠ [] then some names.length else none
              paidAt := none
              stripeSessionId := none
              stripePaymentIntentId := none }
          ({ s with reservations := r :: s.reservations, nextId := s.nextId + 1 },
           .ok s.nextId)

/-- A sequence of POST /reserve calls against one trip.  The trip-row lock
serializes them, so any interleaving of concurrent creates is some such
sequence. -/
def runCreates (s : TripState) (inps : List ReserveInput) : TripState :=
  inps.foldl (fun st i => (createReservation st i).1) s

/-! ### Admin mark-paid and the Stripe webhook -/

/-- POST /admin/reservation/:id/mark-paid, status part (admin router:828-849):
under the reservation row lock, roll back (no-op) when the row is CANCELLED,
otherwise `SET status='PAID', paid_at=NOW(), payment_method=?` with no further
status guard.  Ticket creation, which the route performs next inside the same
transaction, is modelled separately by the ticket functions below. -/
def markPaid (r : Reservation) (pm : PayMethod) (now : ℕ) : Reservation :=
  if r.status = RStatus.CANCELLED then r
  else { r with status := RStatus.PAID, paidAt := some now, paymentMethod := pm }

/-- The guarded UPDATE run for `checkout.session.completed` /
`checkout.session.async_payment_succeeded` with `payment_status = "paid"`
(public.js:1198-1208): `SET status='PAID', paid_at=NOW(),
stripe_session_id=COALESCE(stripe_session_id, ?), stripe_payment_intent_id=?
WHERE id=? AND status <> 'PAID' AND UPPER(payment_method)='ONLINE'`. -/
def webhookPaySuccess (r : Reservation) (sessionId : String)
    (paymentIntent : Option String) (now : ℕ) : Reservation :=
  if r.status ≠ RStatus.PAID ∧ r.paymentMethod = PayMethod.ONLINE then
    { r with
        status := RStatus.PAID
        paidAt := some now
        stripeSessionId := some (r.stripeSessionId.getD sessionId)
        stripePaymentIntentId := paymentIntent }
  else r

/-- UPDATE for `checkout.session.async_payment_failed` (public.js:1222-1231):
back to PENDING_PAYMENT, keep an existing payment intent id
(`COALESCE(stripe_payment_intent_id, ?)`), clear the session id; guarded by
`status <> 'PAID' AND UPPER(payment_method)='ONLINE'`. -/
def webhookAsyncFailed (r : Reservation) (paymentIntent : Option String) : Reservation :=
  if r.paymentMethod = PayMethod.ONLINE ∧ r.status ≠ RStatus.PAID then
    { r with
        status := RStatus.PENDING_PAYMENT
        stripePaymentIntentId := r.stripePaymentIntentId.orElse (fun _ => paymentIntent)
        stripeSessionId := none }
  else r

/-- UPDATE for `checkout.session.expired` (public.js:1238-1246): set EXPIRED
and clear the session id; guarded by `status <> 'PAID' AND
UPPER(payment_method)='ONLINE'`. -/
def webhookSessionExpired (r : Reservation) : Reservation :=
  if r.paymentMethod = PayMethod.ONLINE ∧ r.status ≠ RStatus.PAID then
    { r with status := RStatus.EXPIRED, stripeSessionId := none }
  else r

/-! ### Tickets -/

/-- getTicketCodeByReservationId (public.js:117-127): latest
transporte_tickets row for the reservation, `""` when absent.  Rows are
`(reservation_id, code)` pairs; the UNIQUE KEY on reservation_id that
ensureTicketForReservation relies on (public.js:130) is enforced by
`insertTicket` below, so at most one row per reservation exists. -/
def getTicketCode (tickets : List (ℕ × String)) (rid : ℕ) : String :=
  match tickets.find? (fun t => t.1 = rid) with
  | some t => t.2
  | none => ""

/-- `INSERT INTO transporte_tickets(reservation_id, code, ...)`: throws a
duplicate-key error when a row for this reservation already exists. -/
def insertTicket (tickets : List (ℕ × String)) (rid : ℕ) (code : String) :
    Except Unit (List (ℕ × String)) :=
  if tickets.any (fun t => t.1 = rid) then .error ()
  else .ok (tickets ++ [(rid, code)])

/-- ensureTicketForReservation (public.js:131-152) as one sequential run:
fetch the existing code; if present return it; else insert a fresh code
(`fresh` stands for the generated `crypto.randomBytes(5).toString("hex")`,
always a non-empty string); if the insert throws, re-read and return what is
there.  Returns the new ticket table and the code the caller observes. -/
def ensureTicketForReservation (tickets : List (ℕ × String)) (rid : ℕ)
    (fresh : String) : List (ℕ × String) × String :=
  let existing := getTicketCode tickets rid
  if existing ≠ "" then (tickets, existing)
  else
    match insertTicket tickets rid fresh with
    | .ok tk => (tk, fresh)
    | .error _ => (tickets, getTicketCode tickets rid)

/-! ### The webhook route -/

/-- Stripe event kinds the route dispatches on (public.js:1193-1252). -/
inductive StripeEventType
  | completed
  | asyncPaymentSucceeded
  | asyncPaymentFailed
  | sessionExpired
  | other
deriving DecidableEq, Repr

/-- The parts of a Stripe event the route reads: event type, the reservation
id from metadata / client_reference_id, `payment_status`, session id,
payment intent. -/
structure StripeEvent where
  etype : StripeEventType
  reservationId : Option ℕ
  paymentStatus : String
  sessionId : String
  paymentIntent : Option String
deriving Repr

/-- Database state the webhook route touches. -/
structure WebhookDb where
  reservations : List Reservation
  tickets : List (ℕ × String)
deriving Repr

/-- `UPDATE transporte_reservations ... WHERE id = rid`: apply `f` to the row
with that id. -/
def updateWhere (rs : List Reservation) (rid : ℕ) (f : Reservation → Reservation) :
    List Reservation :=
  rs.map (fun r => if r.id = rid then f r else r)

/-- The try-block of POST /stripe/webhook (public.js:1173-1252).  `dbFail`
models a database statement throwing on the first query a path runs (any
business-logic failure after signature verification).  Returns the new state
and the 2xx acknowledgment, or the thrown error. -/
def handleStripeEvent (db : WebhookDb) (e : StripeEvent) (now : ℕ) (fresh : String)
    (dbFail : Bool) : Except Unit (WebhookDb × ℕ) :=
  match e.reservationId with
  | none => .ok (db, 200)
  | some rid =>
    match e.etype with
    | .completed | .asyncPaymentSucceeded =>
      if e.paymentStatus = "paid" then
        if dbFail then .error ()
        else
          .ok
            ({ reservations :=
                 updateWhere db.reservations rid
                   (fun r => webhookPaySuccess r e.sessionId e.paymentIntent now)
               tickets := (ensureTicketForReservation db.tickets rid fresh).1 },
             200)
      else .ok (db, 200)
    | .asyncPaymentFailed =>
      if dbFail then .error ()
      else
        .ok
          ({ db with
               reservations :=
                 updateWhere db.reservations rid
                   (fun r => webhookAsyncFailed r e.paymentIntent) },
           200)
    | .sessionExpired =>
      if dbFail then .error ()
      else
        .ok
          ({ db with
               reservations := updateWhere db.reservations rid webhookSessionExpired },
           200)
    | .other => .ok (db, 200)

/-- POST /stripe/webhook (public.js:1156-1257).  `sigValid` is the outcome of
`stripe.webhooks.constructEvent(req.rawBody, sig, STRIPE_WEBHOOK_SECRET)` over
the unmodified raw body that server.js:124-132 preserved: when it throws, the
route answers 400 before touching the database; when it verifies, the
try-block runs and a thrown error is logged and answered with 500. -/
def stripeWebhookRoute (db : WebhookDb) (sigValid : Bool) (e : StripeEvent)
    (now : ℕ) (fresh : String) (dbFail : Bool) : WebhookDb × ℕ :=
  if sigValid then
    match handleStripeEvent db e now fresh dbFail with
    | .ok out => out
    | .error _ => (db, 500)
  else (db, 400)

/-- One delivery of a payment-succeeded event with `payment_status = "paid"`
against the single reservation it names, as run by the route: the guarded
UPDATE, then ensureTicketForReservation (public.js:1192-1214). -/
structure WebhookState where
  reservation : Reservation
  tickets : List (ℕ × String)
deriving DecidableEq, Repr

/-- Deliver one payment-succeeded event (payment_status "paid") for the
reservation in `s`. -/
def deliverPaySuccess (s : WebhookState) (sessionId : String)
    (paymentIntent : Option String) (now : ℕ) (fresh : String) : WebhookState :=
  { reservation := webhookPaySuccess s.reservation sessionId paymentIntent now
    tickets := (ensureTicketForReservation s.tickets s.reservation.id fresh).1 }

/-! ### Concurrent ticket issuance

ensureTicketForReservation is called from racing contexts (webhook vs. admin
action).  Each call performs two database accesses: the initial fetch and then
either nothing (code found), a successful insert, or a failed insert followed
by a re-read.  A failed insert means a row already exists, and the UNIQUE KEY
keeps it unchanged afterwards, so the failed-insert-then-re-read pair reads the
same row no matter where the re-read lands; it is therefore modelled as one
atomic resolution step.  The ticket table restricted to one reservation is a
cell holding at most one row (the UNIQUE KEY on reservation_id). -/

/-- Where one ensureTicketForReservation caller stands. -/
inductive CallerPhase
  | start
  | fetchedNone
  | done (code : String)
deriving DecidableEq, Repr

/-- One racing ensureTicketForReservation caller: the fresh code it would
insert, and its phase. -/
structure TicketCaller where
  fresh : String
  phase : CallerPhase
deriving DecidableEq, Repr

/-- One database access of a caller against the ticket cell. -/
def ticketStep (cell : Option String) (c : TicketCaller) :
    Option String × TicketCaller :=
  match c.phase, cell with
  | .start, some code => (some code, { c with phase := .done code })
  | .start, none => (none, { c with phase := .fetchedNone })
  | .fetchedNone, none => (some c.fresh, { c with phase := .done c.fresh })
  | .fetchedNone, some code => (some code, { c with phase := .done code })
  | .done code, cl => (cl, { c with phase := .done code })

/-- The shared ticket cell plus every racing caller. -/
structure TicketSystem where
  cell : Option String
  callers : List TicketCaller
deriving DecidableEq, Repr

/-- Let caller `i` perform its next database access (out-of-range indices do
nothing). -/
def schedStep (s : TicketSystem) (i : ℕ) : TicketSystem :=
  match s.callers[i]? with
  | none => s
  | some c =>
    let out := ticketStep s.cell c
    { cell := out.1, callers := s.callers.set i out.2 }

/-- Run an arbitrary interleaving of the callers' database accesses. -/
def runSched (s : TicketSystem) : List ℕ → TicketSystem
  | [] => s
  | i :: rest => runSched (schedStep s i) rest

/-! ### Daily folio sequence -/

/-- Modelled from the spec: the dailySeq allocation of createReservation is
not present under src/ — the INSERT of POST /reserve (public.js:486-499) does
not set folio_date or daily_seq, and sql/20260209_daily_folio_sequence.sql
only adds the columns, backfills old rows and creates the unique index
uq_res_folio_date_daily_seq, noting it must run before the backend change is
deployed.  Following the spec sentence "Allocate dailySeq = max(existing for
folioDate)+1 inside the same transaction": the allocation reads the existing
daily_seq values of the folio date inside the reservation-insert transaction
and takes their maximum plus one. -/
def allocDailySeq (existing : List ℕ) : ℕ :=
  existing.foldr max 0 + 1

/-- The daily_seq values present for one folio date after `n` reservation
creations that day, each allocating inside its own transaction (newest
first).  The transactions are serialized by the trip lock and the unique
index, so concurrent creations execute as some sequential order. -/
def dailySeqsAfter : ℕ → List ℕ
  | 0 => []
  | n + 1 => allocDailySeq (dailySeqsAfter n) :: dailySeqsAfter n

/-! ### Admin trip enable/disable -/

/-- A row of transporte_trips. -/
structure AdminTrip where
  id : ℕ
  templateId : ℕ
  tripDate : ℕ
  status : TripStatus
  notes : Option String
deriving DecidableEq, Repr

/-- A row of transporte_payments (the manual-payment audit table): the
admin routes use the literal status strings PENDING / REJECTED. -/
structure PaymentRow where
  id : ℕ
  reservationId : ℕ
  status : String
deriving DecidableEq, Repr

/-- Database state for the admin trip/reservation routes. -/
structure AdminDb where
  trips : List AdminTrip
  reservations : List Reservation
  payments : List PaymentRow
  nextTripId : ℕ
deriving Repr

/-- `INSERT INTO transporte_trips ... ON DUPLICATE KEY UPDATE status, notes`
(admin router:465-475): the UNIQUE(template_id, trip_date) key decides
between insert and update. -/
def upsertTrip (db : AdminDb) (templateId tripDate : ℕ) (st : TripStatus)
    (notes : Option String) : AdminDb :=
  if db.trips.any (fun t => t.templateId = templateId ∧ t.tripDate = tripDate) then
    { db with
        trips := db.trips.map (fun t =>
          if t.templateId = templateId ∧ t.tripDate = tripDate then
            { t with status := st, notes := notes }
          else t) }
  else
    { db with
        trips := db.trips ++ [⟨db.nextTripId, templateId, tripDate, st, notes⟩]
        nextTripId := db.nextTripId + 1 }

/-- `SELECT id FROM transporte_trips WHERE template_id=? AND trip_date=? LIMIT 1`. -/
def findTripId (db : AdminDb) (templateId tripDate : ℕ) : Option ℕ :=
  (db.trips.find? (fun t => t.templateId = templateId ∧ t.tripDate = tripDate)).map
    (fun t => t.id)

/-- The reservation rows the disable path cancels (admin router:495-503):
`WHERE trip_id = ? AND status IN ('PENDING_PAYMENT', 'PAY_AT_BOARDING')`. -/
def pendingOnTrip (tid : ℕ) (r : Reservation) : Prop :=
  r.tripId = tid ∧ (r.status = RStatus.PENDING_PAYMENT ∨ r.status = RStatus.PAY_AT_BOARDING)

instance (tid : ℕ) (r : Reservation) : Decidable (pendingOnTrip tid r) := by
  unfold pendingOnTrip; infer_instance

/-- POST /admin/api/horarios/trip (admin router:437-533), the transaction
body: upsert the trip row for (template, date) to OPEN or CANCELLED; re-read
its id; when disabling, cancel the still-pending reservations of that trip and
reject the PENDING transporte_payments rows joined to reservations of that
trip, collecting the affected-row counts.  Everything commits or rolls back
together; on success the route answers with the two counts. -/
def tripSetEnabled (db : AdminDb) (templateId tripDate : ℕ) (enabled : Bool)
    (notes : Option String) : AdminDb × ℕ × ℕ :=
  let status := if enabled then TripStatus.OPEN else TripStatus.CANCELLED
  let db1 := upsertTrip db templateId tripDate status notes
  match findTripId db1 templateId tripDate with
  | none => (db, 0, 0)
  | some tid =>
    if status = TripStatus.CANCELLED then
      let cancelledCount := (db1.reservations.filter (fun r => pendingOnTrip tid r)).length
      let db2 :=
        { db1 with
            reservations := db1.reservations.map (fun r =>
              if pendingOnTrip tid r then { r with status := RStatus.CANCELLED } else r) }
      let payHit := fun (p : PaymentRow) =>
        p.status = "PENDING" ∧
          db2.reservations.any (fun r => r.id = p.reservationId ∧ r.tripId = tid)
      let rejectedCount := (db2.payments.filter (fun p => payHit p)).length
      let db3 :=
        { db2 with
            payments := db2.payments.map (fun p =>
              if payHit p then { p with status := "REJECTED" } else p) }
      (db3, cancelledCount, rejectedCount)
    else (db1, 0, 0)

/-! ### Admin cancel -/

/-- Outcome of POST /admin/reservation/:id/cancel. -/
inductive CancelOutcome
  | notFound
  | alreadyCancelled
  | rejectedPaidOffline
  | cancelled
deriving DecidableEq, Repr

/-- Database state the cancel route touches. -/
structure CancelDb where
  reservations : List Reservation
  payments : List PaymentRow
deriving Repr

/-- POST /admin/reservation/:id/cancel (admin router:893-950): lock and read
the reservation row; roll back when it is missing, already CANCELLED, or PAID
with a payment method other than ONLINE; otherwise
`SET status='CANCELLED' WHERE id = ? AND status <> 'CANCELLED'` and commit.
The route never touches transporte_payments. -/
def cancelReservation (db : CancelDb) (rid : ℕ) : CancelDb × CancelOutcome :=
  match db.reservations.find? (fun r => r.id = rid) with
  | none => (db, .notFound)
  | some r =>
    if r.status = RStatus.CANCELLED then (db, .alreadyCancelled)
    else if r.status = RStatus.PAID ∧ r.paymentMethod ≠ PayMethod.ONLINE then
      (db, .rejectedPaidOffline)
    else
      ({ db with
           reservations := db.reservations.map (fun x =>
             if x.id = rid ∧ x.status ≠ RStatus.CANCELLED then
               { x with status := RStatus.CANCELLED }
             else x) },
       .cancelled)

/-- The trip invariant POST /reserve maintains: the active PASSENGER seat sum
of the trip never exceeds the effective capacity. -/
def tripInv (s : TripState) : Prop :=
  activeSeats s.tripId s.reservations ≤ effectiveCapacity s.cap

/-- Index-based invariant of the ticket race: every caller that has finished
observed exactly the code stored in the unique ticket row. -/
def ticketInv (s : TicketSystem) : Prop :=
  ∀ (j : ℕ) (hj : j < s.callers.length) (k : String),
    (s.callers.get ⟨j, hj⟩).phase = CallerPhase.done k → s.cell = some k

/-- The payments the disable path rejects, phrased over the original database:
PENDING audit rows joined to a reservation of the disabled trip (the
reservation UPDATE that runs first changes neither ids nor trip ids, so the
join matches the same rows). -/
def payPendingOnTrip (db : AdminDb) (tid : ℕ) (p : PaymentRow) : Prop :=
  p.status = "PENDING" ∧ ∃ r ∈ db.reservations, r.id = p.reservationId ∧ r.tripId = tid

instance (db : AdminDb) (tid : ℕ) (p : PaymentRow) :
    Decidable (payPendingOnTrip db tid p) := by
  unfold payPendingOnTrip; infer_instance

/-- A concrete agenda: one trip (id 7) for template 1 on date 5 carrying
three pending reservations and one PAID one. -/
def sampleAdminDb : AdminDb :=
  { trips := [⟨7, 1, 5, TripStatus.OPEN, none⟩]
    reservations :=
      [⟨1, 7, RType.PASSENGER, 1, RStatus.PENDING_PAYMENT, PayMethod.TAQUILLA,
          none, none, none, none⟩,
       ⟨2, 7, RType.PASSENGER, 2, RStatus.PENDING_PAYMENT, PayMethod.ONLINE,
          none, none, none, none⟩,
       ⟨3, 7, RType.PASSENGER, 1, RStatus.PAY_AT_BOARDING, PayMethod.TAQUILLA,
          none, none, none, none⟩,
       ⟨4, 7, RType.PASSENGER, 1, RStatus.PAID, PayMethod.TAQUILLA,
          none, some 9, none, none⟩]
    payments := []
    nextTripId := 8 }


/-! ## Theorems -/

/-- C10 counterexample: a non-empty, non-numeric `seats` value (for example
"abc") survives `req.body.seats || 1` because a non-empty string is truthy,
`Number` turns it into NaN, and `Math.max(1, Math.min(6, NaN))` is NaN — not
the value 1 the claim states. -/
theorem c10_nonnumeric_seats_is_nan :
    normalizeSeats RType.PASSENGER SeatsField.nonNumericStr = JsNum.nan
    ∧ JsNum.nan ≠ JsNum.val 1 := by
  decide

/-- C10 amended: for PASSENGER, a missing or empty seats request becomes 1, a
numeric request is clamped into [1, 6] (zero and negatives become 1, values
above 6 become 6), but a non-empty non-numeric request becomes NaN rather than
1; for PACKAGE the stored seats is always 0 and no roster rows are stored. -/
theorem c10_seats_normalization :
    (∀ x : SeatsField, normalizeSeats RType.PACKAGE x = JsNum.val 0)
    ∧ normalizeSeats RType.PASSENGER SeatsField.missing = JsNum.val 1
    ∧ normalizeSeats RType.PASSENGER SeatsField.emptyStr = JsNum.val 1
    ∧ (∀ q : ℚ, q ≤ 1 →
        normalizeSeats RType.PASSENGER (SeatsField.numericStr q) = JsNum.val 1)
    ∧ (∀ q : ℚ, 1 ≤ q → q ≤ 6 →
        normalizeSeats RType.PASSENGER (SeatsField.numericStr q) = JsNum.val q)
    ∧ (∀ q : ℚ, 6 ≤ q →
        normalizeSeats RType.PASSENGER (SeatsField.numericStr q) = JsNum.val 6)
    ∧ normalizeSeats RType.PASSENGER SeatsField.nonNumericStr = JsNum.nan
    ∧ (∀ (s : TripState) (inp : ReserveInput), inp.rtype = RType.PACKAGE →
        ((createReservation s inp).1.reservations = s.reservations ∨
          ∃ r : Reservation,
            (createReservation s inp).1.reservations = r :: s.reservations ∧
              r.seats = 0 ∧ r.rosterCount = none)) := by
  have hnum : ∀ q : ℚ,
      normalizeSeats RType.PASSENGER (SeatsField.numericStr q)
        = JsNum.val (max 1 (min 6 q)) := by
    intro q
    simp [normalizeSeats, seatsWantedNum, jsMax, jsMin, MAX_CAP]
  refine ⟨?_, by decide, by decide, ?_, ?_, ?_, by decide, ?_⟩
  · intro x; simp [normalizeSeats]
  · intro q hq
    rw [hnum, min_eq_right (le_trans hq (by norm_num)), max_eq_left hq]
  · intro q h1 h6
    rw [hnum, min_eq_right h6, max_eq_right h1]
  · intro q hq
    rw [hnum, min_eq_left hq, max_eq_right (by norm_num)]
  · intro s inp h
    simp only [createReservation, h, normalizeSeats]
    split_ifs <;> simp_all

/-- C10 witness: the amended normalization at concrete inputs, and a PACKAGE
creation storing seats 0 with no roster rows. -/
theorem c10_seats_normalization_witness :
    normalizeSeats RType.PACKAGE SeatsField.missing = JsNum.val 0
    ∧ normalizeSeats RType.PASSENGER (SeatsField.numericStr (-3)) = JsNum.val 1
    ∧ normalizeSeats RType.PASSENGER (SeatsField.numericStr 4) = JsNum.val 4
    ∧ normalizeSeats RType.PASSENGER (SeatsField.numericStr 9) = JsNum.val 6
    ∧ ((createReservation ⟨TripStatus.OPEN, 6, 1, [], 1⟩
          ⟨"Ana", RType.PACKAGE, "caja", PayMethod.TAQUILLA,
            SeatsField.numericStr 4, []⟩).1.reservations = [] ∨
        ∃ r : Reservation,
          (createReservation ⟨TripStatus.OPEN, 6, 1, [], 1⟩
            ⟨"Ana", RType.PACKAGE, "caja", PayMethod.TAQUILLA,
              SeatsField.numericStr 4, []⟩).1.reservations = r :: [] ∧
            r.seats = 0 ∧ r.rosterCount = none) :=
  ⟨c10_seats_normalization.1 SeatsField.missing,
   c10_seats_normalization.2.2.2.1 (-3) (by norm_num),
   c10_seats_normalization.2.2.2.2.1 4 (by norm_num) (by norm_num),
   c10_seats_normalization.2.2.2.2.2.1 9 (by norm_num),
   c10_seats_normalization.2.2.2.2.2.2.2 _ _ rfl⟩

/-- C2 counterexample: a payment-succeeded webhook event moves a CANCELLED
ONLINE reservation to PAID, moves an EXPIRED ONLINE reservation to PAID, and
admin mark-paid moves an EXPIRED reservation to PAID — so CANCELLED/EXPIRED
are not immune to mark-paid/webhook-success as claimed; only the
(CANCELLED, mark-paid) combination is a no-op. -/
theorem c2_terminal_states_not_immune :
    (webhookPaySuccess
      ⟨1, 1, RType.PASSENGER, 1, RStatus.CANCELLED, PayMethod.ONLINE,
        none, none, none, none⟩ "cs_1" none 10).status = RStatus.PAID
    ∧ (webhookPaySuccess
        ⟨2, 1, RType.PASSENGER, 1, RStatus.EXPIRED, PayMethod.ONLINE,
          none, none, none, none⟩ "cs_2" none 10).status = RStatus.PAID
    ∧ (markPaid
        ⟨3, 1, RType.PASSENGER, 1, RStatus.EXPIRED, PayMethod.ONLINE,
          none, none, none, none⟩ PayMethod.TAQUILLA 5).status = RStatus.PAID := by
  refine ⟨rfl, rfl, rfl⟩

/-- C2 amended: of the claimed immunities only this one holds in the code: a
reservation that is already CANCELLED is left entirely unchanged by the admin
mark-paid operation (the route rolls back before the UPDATE).  The webhook
success guard is only `status <> PAID AND method = ONLINE`, and mark-paid only
checks CANCELLED, so the other terminal-state/event combinations do change
status (see the counterexample). -/
theorem c2_markPaid_noop_on_cancelled (r : Reservation) (pm : PayMethod) (now : ℕ)
    (h : r.status = RStatus.CANCELLED) : markPaid r pm now = r := by
  simp [markPaid, h]

/-- C2 witness: mark-paid at a concrete CANCELLED reservation. -/
theorem c2_markPaid_noop_on_cancelled_witness :
    markPaid
      ⟨4, 1, RType.PASSENGER, 2, RStatus.CANCELLED, PayMethod.TRANSFERENCIA,
        none, none, none, none⟩ PayMethod.TAQUILLA 3
      = ⟨4, 1, RType.PASSENGER, 2, RStatus.CANCELLED, PayMethod.TRANSFERENCIA,
        none, none, none, none⟩ :=
  c2_markPaid_noop_on_cancelled _ _ _ rfl

/-- C3: delivering the same payment-succeeded event twice for an ONLINE
reservation that is not yet PAID produces exactly one transition into PAID
(the first delivery), exactly one paidAt timestamp (the first delivery's,
never overwritten because the UPDATE is guarded by `status <> 'PAID'`), and
exactly one ticket row (the second ensureTicketForReservation call finds the
existing code before inserting), the second delivery changing nothing at all. -/
theorem c3_webhook_replay_idempotent (r : Reservation) (sid : String)
    (pi : Option String) (t1 t2 : ℕ) (f1 f2 : String)
    (hm : r.paymentMethod = PayMethod.ONLINE) (hs : r.status ≠ RStatus.PAID)
    (hf : f1 ≠ "") :
    (deliverPaySuccess ⟨r, []⟩ sid pi t1 f1).reservation.status = RStatus.PAID
    ∧ (deliverPaySuccess ⟨r, []⟩ sid pi t1 f1).reservation.paidAt = some t1
    ∧ (deliverPaySuccess ⟨r, []⟩ sid pi t1 f1).tickets = [(r.id, f1)]
    ∧ deliverPaySuccess (deliverPaySuccess ⟨r, []⟩ sid pi t1 f1) sid pi t2 f2
        = deliverPaySuccess ⟨r, []⟩ sid pi t1 f1 := by
  have e1 : deliverPaySuccess ⟨r, []⟩ sid pi t1 f1 =
      ⟨{ r with
          status := RStatus.PAID
          paidAt := some t1
          stripeSessionId := some (r.stripeSessionId.getD sid)
          stripePaymentIntentId := pi },
        [(r.id, f1)]⟩ := by
    simp [deliverPaySuccess, webhookPaySuccess, hs, hm,
      ensureTicketForReservation, getTicketCode, insertTicket]
  rw [e1]
  refine ⟨rfl, rfl, rfl, ?_⟩
  simp [deliverPaySuccess, webhookPaySuccess, ensureTicketForReservation,
    getTicketCode, List.find?, hf]

/-- C3 witness: replaying a concrete succeeded event is a no-op after the
first delivery. -/
theorem c3_webhook_replay_idempotent_witness :
    (deliverPaySuccess
      ⟨⟨1, 1, RType.PASSENGER, 2, RStatus.PENDING_PAYMENT, PayMethod.ONLINE,
        none, none, none, none⟩, []⟩ "cs_9" (some "pi_9") 5 "AB12").reservation.status
        = RStatus.PAID
    ∧ (deliverPaySuccess
        ⟨⟨1, 1, RType.PASSENGER, 2, RStatus.PENDING_PAYMENT, PayMethod.ONLINE,
          none, none, none, none⟩, []⟩ "cs_9" (some "pi_9") 5 "AB12").reservation.paidAt
        = some 5
    ∧ (deliverPaySuccess
        ⟨⟨1, 1, RType.PASSENGER, 2, RStatus.PENDING_PAYMENT, PayMethod.ONLINE,
          none, none, none, none⟩, []⟩ "cs_9" (some "pi_9") 5 "AB12").tickets
        = [(1, "AB12")]
    ∧ deliverPaySuccess
        (deliverPaySuccess
          ⟨⟨1, 1, RType.PASSENGER, 2, RStatus.PENDING_PAYMENT, PayMethod.ONLINE,
            none, none, none, none⟩, []⟩ "cs_9" (some "pi_9") 5 "AB12")
        "cs_9" (some "pi_9") 9 "CD34"
        = deliverPaySuccess
            ⟨⟨1, 1, RType.PASSENGER, 2, RStatus.PENDING_PAYMENT, PayMethod.ONLINE,
              none, none, none, none⟩, []⟩ "cs_9" (some "pi_9") 5 "AB12" :=
  c3_webhook_replay_idempotent _ "cs_9" (some "pi_9") 5 9 "AB12" "CD34" rfl
    (by decide) (by decide)

/-- The maximum existing daily_seq after `n` creations is `n`. -/
theorem dailySeqsAfter_foldr_max (n : ℕ) : (dailySeqsAfter n).foldr max 0 = n := by
  induction n with
  | zero => rfl
  | succ n ih =>
    show max (allocDailySeq (dailySeqsAfter n)) ((dailySeqsAfter n).foldr max 0) = n + 1
    rw [allocDailySeq, ih]
    exact Nat.max_eq_left (Nat.le_succ n)

/-- After `n` creations the stored daily_seq values are `n, n-1, ..., 1`. -/
theorem dailySeqsAfter_eq (n : ℕ) : dailySeqsAfter n = (List.range' 1 n).reverse := by
  induction n with
  | zero => rfl
  | succ n ih =>
    show allocDailySeq (dailySeqsAfter n) :: dailySeqsAfter n = _
    rw [allocDailySeq, dailySeqsAfter_foldr_max, ih, List.range'_concat]
    simp [Nat.add_comm]

/-- C4: allocating dailySeq = max(existing for the folio date)+1 inside each
reservation-insert transaction makes the daily_seq values of any fixed date a
contiguous, duplicate-free set {1..N} after N creations that day. -/
theorem c4_daily_seq_contiguous (n : ℕ) :
    (dailySeqsAfter n).Perm (List.range' 1 n) ∧ (dailySeqsAfter n).Nodup := by
  rw [dailySeqsAfter_eq]
  exact ⟨(List.range' 1 n).reverse_perm, List.nodup_reverse.mpr (List.nodup_range' 1 n)⟩

/-- C5 counterexample: for a request whose signature verifies, a
business-logic failure thrown while applying a paid checkout.session.completed
event is answered with HTTP 500 — not the success (2xx) acknowledgment the
claim states. -/
theorem c5_handler_error_returns_500 :
    stripeWebhookRoute ⟨[], []⟩ true
      ⟨StripeEventType.completed, some 1, "paid", "cs_1", none⟩ 0 "AB12" true
      = (⟨[], []⟩, 500)
    ∧ ¬ (200 ≤ 500 ∧ 500 < 300) := by
  exact ⟨rfl, by decide⟩

/-- C5 amended: a failure thrown while applying a signature-verified event's
business logic is logged and answered with HTTP 500 (an error status that
makes the gateway retry), not with a success acknowledgment; the state the
route would have written is left as it was. -/
theorem c5_handler_error_surfaces (db : WebhookDb) (e : StripeEvent) (now : ℕ)
    (fresh : String) (h : handleStripeEvent db e now fresh true = .error ()) :
    stripeWebhookRoute db true e now fresh true = (db, 500) := by
  simp [stripeWebhookRoute, h]

/-- C5 witness: the amended behaviour at a concrete failing event. -/
theorem c5_handler_error_surfaces_witness :
    stripeWebhookRoute ⟨[], []⟩ true
      ⟨StripeEventType.sessionExpired, some 2, "unpaid", "cs_2", none⟩ 3 "CD34" true
      = (⟨[], []⟩, 500) :=
  c5_handler_error_surfaces ⟨[], []⟩
    ⟨StripeEventType.sessionExpired, some 2, "unpaid", "cs_2", none⟩ 3 "CD34" rfl

/-- C6: when the Stripe signature does not verify over the raw body,
constructEvent throws, the route answers 400 (an error status) before running
any query, and the database is exactly what it was — for every event and every
database state. -/
theorem c6_invalid_signature_rejected (db : WebhookDb) (e : StripeEvent)
    (now : ℕ) (fresh : String) (dbFail : Bool) :
    stripeWebhookRoute db false e now fresh dbFail = (db, 400)
    ∧ ¬ (200 ≤ 400 ∧ 400 < 300) :=
  ⟨rfl, by decide⟩

/-- C9 counterexample: cancelling a PAID+ONLINE reservation that has a PENDING
transporte_payments audit row cancels the reservation but leaves the audit row
PENDING — the route never touches transporte_payments, contradicting the
claim's "also marks any PENDING manual-payment audit row tied to that
reservation as rejected". -/
theorem c9_cancel_leaves_audit_pending :
    (cancelReservation
      ⟨[⟨1, 1, RType.PASSENGER, 1, RStatus.PAID, PayMethod.ONLINE,
          none, some 5, none, none⟩],
        [⟨1, 1, "PENDING"⟩]⟩ 1).2 = CancelOutcome.cancelled
    ∧ (cancelReservation
        ⟨[⟨1, 1, RType.PASSENGER, 1, RStatus.PAID, PayMethod.ONLINE,
            none, some 5, none, none⟩],
          [⟨1, 1, "PENDING"⟩]⟩ 1).1.reservations.map Reservation.status
        = [RStatus.CANCELLED]
    ∧ (cancelReservation
        ⟨[⟨1, 1, RType.PASSENGER, 1, RStatus.PAID, PayMethod.ONLINE,
            none, some 5, none, none⟩],
          [⟨1, 1, "PENDING"⟩]⟩ 1).1.payments
        = [⟨1, 1, "PENDING"⟩] := by
  refine ⟨rfl, rfl, rfl⟩

/-- C9 amended: under the reservation row lock, cancel is a no-op when the
reservation is already CANCELLED; it rejects (state unchanged) when the
reservation is PAID with a non-ONLINE method; when PAID and ONLINE it cancels:
the targeted row becomes CANCELLED, every other row is kept, and the
manual-payment audit rows are left untouched (the route has no audit-row
update). -/
theorem c9_cancel_reservation_behaviour (db : CancelDb) (rid : ℕ) (r : Reservation)
    (hfind : db.reservations.find? (fun x => x.id = rid) = some r) :
    (r.status = RStatus.CANCELLED → cancelReservation db rid = (db, .alreadyCancelled))
    ∧ (r.status = RStatus.PAID → r.paymentMethod ≠ PayMethod.ONLINE →
        cancelReservation db rid = (db, .rejectedPaidOffline))
    ∧ (r.status = RStatus.PAID → r.paymentMethod = PayMethod.ONLINE →
        (cancelReservation db rid).2 = CancelOutcome.cancelled
        ∧ (cancelReservation db rid).1.payments = db.payments
        ∧ (∀ x ∈ db.reservations, x.id ≠ rid →
            x ∈ (cancelReservation db rid).1.reservations)
        ∧ (∀ x ∈ db.reservations, x.id = rid → x.status ≠ RStatus.CANCELLED →
            { x with status := RStatus.CANCELLED }
              ∈ (cancelReservation db rid).1.reservations)) := by
  refine ⟨?_, ?_, ?_⟩
  · intro h
    simp [cancelReservation, hfind, h]
  · intro h hpm
    have : ¬ r.status = RStatus.CANCELLED := by rw [h]; decide
    simp [cancelReservation, hfind, this, h, hpm]
  · intro h hpm
    have h1 : ¬ r.status = RStatus.CANCELLED := by rw [h]; decide
    have h2 : ¬ (r.status = RStatus.PAID ∧ r.paymentMethod ≠ PayMethod.ONLINE) := by
      rw [h, hpm]; simp
    refine ⟨?_, ?_, ?_, ?_⟩
    · simp [cancelReservation, hfind, h1, h2]
    · simp [cancelReservation, hfind, h1, h2]
    · intro x hx hne
      simp only [cancelReservation, hfind, if_neg h1, if_neg h2]
      exact List.mem_map.mpr ⟨x, hx, by simp [hne]⟩
    · intro x hx hid hst
      simp only [cancelReservation, hfind, if_neg h1, if_neg h2]
      exact List.mem_map.mpr ⟨x, hx, by simp [hid, hst]⟩

/-- C9 witness: the amended behaviour at the concrete PAID+ONLINE database. -/
theorem c9_cancel_reservation_behaviour_witness :
    (cancelReservation
      ⟨[⟨1, 1, RType.PASSENGER, 1, RStatus.PAID, PayMethod.ONLINE,
          none, some 5, none, none⟩],
        [⟨1, 1, "PENDING"⟩]⟩ 1).2 = CancelOutcome.cancelled
    ∧ (cancelReservation
        ⟨[⟨1, 1, RType.PASSENGER, 1, RStatus.PAID, PayMethod.ONLINE,
            none, some 5, none, none⟩],
          [⟨1, 1, "PENDING"⟩]⟩ 1).1.payments = [⟨1, 1, "PENDING"⟩] :=
  ⟨((c9_cancel_reservation_behaviour
      ⟨[⟨1, 1, RType.PASSENGER, 1, RStatus.PAID, PayMethod.ONLINE,
          none, some 5, none, none⟩],
        [⟨1, 1, "PENDING"⟩]⟩ 1
      ⟨1, 1, RType.PASSENGER, 1, RStatus.PAID, PayMethod.ONLINE,
        none, some 5, none, none⟩ rfl).2.2 rfl rfl).1,
   ((c9_cancel_reservation_behaviour
      ⟨[⟨1, 1, RType.PASSENGER, 1, RStatus.PAID, PayMethod.ONLINE,
          none, some 5, none, none⟩],
        [⟨1, 1, "PENDING"⟩]⟩ 1
      ⟨1, 1, RType.PASSENGER, 1, RStatus.PAID, PayMethod.ONLINE,
        none, some 5, none, none⟩ rfl).2.2 rfl rfl).2.1⟩

/-! ### C1: the no-oversell invariant -/

/-- Unfolding activeSeats over a cons. -/
theorem activeSeats_cons (tid : ℕ) (r : Reservation) (rs : List Reservation) :
    activeSeats tid (r :: rs)
      = (if r.tripId = tid then caseSeat r else 0) + activeSeats tid rs := rfl

/-- Bounds a PASSENGER normalization can produce: the clamped value is in
[1, 6]. -/
theorem normalizeSeats_passenger_val {x : SeatsField} {q : ℚ}
    (h : normalizeSeats RType.PASSENGER x = JsNum.val q) : 1 ≤ q ∧ q ≤ 6 := by
  cases x <;>
    simp [normalizeSeats, seatsWantedNum, jsMax, jsMin, MAX_CAP] at h
  · exact h ▸ ⟨by norm_num, by norm_num⟩
  · exact h ▸ ⟨by norm_num, by norm_num⟩
  · exact h ▸ ⟨le_max_left _ _, max_le (by norm_num) (min_le_left _ _)⟩

/-- Both freshly created statuses count against capacity. -/
theorem isActiveStatus_initialStatus (pm : PayMethod) :
    isActiveStatus (initialStatus pm) = true := by
  cases pm <;> rfl

/-- Outcome analysis of the POST /reserve transaction: either it rolled back
(state unchanged), or it appended exactly one reservation row whose seats
value `q` passed the capacity guard (for PASSENGER, `available < q` was
false) and whose roster count, when roster rows were inserted, equals `q`;
PACKAGE rows never carry roster rows. -/
theorem createReservation_spec (s : TripState) (inp : ReserveInput) :
    (createReservation s inp).1 = s ∨
    ∃ q : ℚ, ∃ rc : Option ℕ,
      normalizeSeats inp.rtype inp.seatsField = JsNum.val q ∧
      (inp.rtype = RType.PASSENGER →
        ¬ computeAvailable s.cap s.tripId s.reservations < q) ∧
      (∀ n : ℕ, rc = some n → (n : ℚ) = q) ∧
      (inp.rtype = RType.PACKAGE → rc = none) ∧
      (createReservation s inp).1 =
        { s with
            reservations :=
              { id := s.nextId
                tripId := s.tripId
                rtype := inp.rtype
                seats := q
                status := initialStatus inp.paymentMethod
                paymentMethod := inp.paymentMethod
                rosterCount := rc
                paidAt := none
                stripeSessionId := none
                stripePaymentIntentId := none } :: s.reservations
            nextId := s.nextId + 1 } := by
  simp only [createReservation]
  by_cases h1 : s.tripStatus ≠ TripStatus.OPEN
  · rw [if_pos h1]; exact Or.inl rfl
  rw [if_neg h1]
  by_cases h2 : inp.rtype = RType.PASSENGER ∧
      jsLt (JsNum.val (computeAvailable s.cap s.tripId s.reservations))
        (normalizeSeats inp.rtype inp.seatsField) = true
  · rw [if_pos h2]; exact Or.inl rfl
  rw [if_neg h2]
  by_cases h3 : inp.customerName = ""
  · rw [if_pos h3]; exact Or.inl rfl
  rw [if_neg h3]
  by_cases h4 : inp.rtype = RType.PACKAGE ∧ inp.packageDetails = ""
  · rw [if_pos h4]; exact Or.inl rfl
  rw [if_neg h4]
  by_cases h5 : inp.rtype = RType.PACKAGE
  · rw [if_pos h5]
    rw [if_neg (by simp : ¬ (inp.rtype = RType.PASSENGER ∧ (List.nil (α := String)) ≠ [] ∧
      jsNeLen (List.nil (α := String)).length (normalizeSeats inp.rtype inp.seatsField) = true))]
    rcases hsn : normalizeSeats inp.rtype inp.seatsField with _ | q
    · exact Or.inl rfl
    · refine Or.inr ⟨q, none, rfl, ?_, by simp, fun _ => rfl, ?_⟩
      · intro hp
        rw [hp] at h5
        exact RType.noConfusion h5
      · rw [if_neg (by simp : ¬ (inp.rtype = RType.PASSENGER ∧
          (List.nil (α := String)) ≠ []))]
  · rw [if_neg h5]
    by_cases h6 : inp.rtype = RType.PASSENGER ∧ inp.passengerNames ≠ [] ∧
        jsNeLen inp.passengerNames.length (normalizeSeats inp.rtype inp.seatsField) = true
    · rw [if_pos h6]; exact Or.inl rfl
    · rw [if_neg h6]
      rcases hsn : normalizeSeats inp.rtype inp.seatsField with _ | q
      · exact Or.inl rfl
      · refine Or.inr ⟨q,
          if inp.rtype = RType.PASSENGER ∧ inp.passengerNames ≠ [] then
            some inp.passengerNames.length
          else none,
          rfl, ?_, ?_, fun hpk => absurd hpk h5, rfl⟩
        · intro hp hlt
          exact h2 ⟨hp, by rw [hsn]; simpa [jsLt] using hlt⟩
        · intro n hn
          by_cases hpn : inp.rtype = RType.PASSENGER ∧ inp.passengerNames ≠ []
          · rw [if_pos hpn] at hn
            have hlen : inp.passengerNames.length = n := Option.some.inj hn
            have hne : ¬ jsNeLen inp.passengerNames.length
                (normalizeSeats inp.rtype inp.seatsField) = true := by
              intro hbad
              exact h6 ⟨hpn.1, hpn.2, hbad⟩
            rw [hsn] at hne
            simp only [jsNeLen, decide_eq_true_eq, not_not] at hne
            rw [← hlen]
            exact hne
          · rw [if_neg hpn] at hn
            exact absurd hn (by simp)

/-- One createReservation call preserves the invariant. -/
theorem createReservation_inv (s : TripState) (inp : ReserveInput)
    (h : tripInv s) : tripInv (createReservation s inp).1 := by
  rcases createReservation_spec s inp with he | ⟨q, rc, hq, hcap, hrc, _, he⟩
  · rw [tripInv, he]; exact h
  · rw [tripInv, he]
    show activeSeats s.tripId
        ({ id := s.nextId, tripId := s.tripId, rtype := inp.rtype, seats := q,
           status := initialStatus inp.paymentMethod,
           paymentMethod := inp.paymentMethod, rosterCount := rc,
           paidAt := none, stripeSessionId := none,
           stripePaymentIntentId := none } :: s.reservations)
        ≤ effectiveCapacity s.cap
    rw [activeSeats_cons, if_pos rfl]
    by_cases hrt : inp.rtype = RType.PASSENGER
    · rw [hrt] at hq
      have hb := normalizeSeats_passenger_val hq
      rcases rc with _ | n
      · have hw : caseSeat
            { id := s.nextId, tripId := s.tripId, rtype := inp.rtype, seats := q,
              status := initialStatus inp.paymentMethod,
              paymentMethod := inp.paymentMethod, rosterCount := none,
              paidAt := none, stripeSessionId := none,
              stripePaymentIntentId := none } = q := by
          rw [caseSeat,
            if_pos ⟨hrt, isActiveStatus_initialStatus inp.paymentMethod⟩]
          show (if q = 0 then (1 : ℚ) else q) = q
          rw [if_neg]
          intro h0
          rw [h0] at hb
          exact absurd hb.1 (by norm_num)
        rw [hw]
        have hle : q ≤ computeAvailable s.cap s.tripId s.reservations :=
          not_lt.mp (hcap hrt)
        rw [computeAvailable, max_eq_left (sub_nonneg.mpr h)] at hle
        have hinv : activeSeats s.tripId s.reservations ≤ effectiveCapacity s.cap := h
        linarith
      · have hw : caseSeat
            { id := s.nextId, tripId := s.tripId, rtype := inp.rtype, seats := q,
              status := initialStatus inp.paymentMethod,
              paymentMethod := inp.paymentMethod, rosterCount := some n,
              paidAt := none, stripeSessionId := none,
              stripePaymentIntentId := none } = q := by
          rw [caseSeat,
            if_pos ⟨hrt, isActiveStatus_initialStatus inp.paymentMethod⟩]
          exact hrc n rfl
        rw [hw]
        have hle : q ≤ computeAvailable s.cap s.tripId s.reservations :=
          not_lt.mp (hcap hrt)
        rw [computeAvailable, max_eq_left (sub_nonneg.mpr h)] at hle
        have hinv : activeSeats s.tripId s.reservations ≤ effectiveCapacity s.cap := h
        linarith
    · have hw : caseSeat
          { id := s.nextId, tripId := s.tripId, rtype := inp.rtype, seats := q,
            status := initialStatus inp.paymentMethod,
            paymentMethod := inp.paymentMethod, rosterCount := rc,
            paidAt := none, stripeSessionId := none,
            stripePaymentIntentId := none } = 0 := by
        rw [caseSeat, if_neg]
        intro hc
        exact hrt hc.1
      rw [hw, zero_add]
      exact h

/-- createReservation never changes the trip's capacity or identity. -/
theorem createReservation_fields (s : TripState) (inp : ReserveInput) :
    (createReservation s inp).1.cap = s.cap
    ∧ (createReservation s inp).1.tripId = s.tripId := by
  rcases createReservation_spec s inp with he | ⟨q, rc, _, _, _, _, he⟩ <;>
    rw [he] <;> exact ⟨rfl, rfl⟩

/-- Any serialized sequence of creates preserves the invariant and the trip
identity. -/
theorem runCreates_inv (inps : List ReserveInput) :
    ∀ s : TripState, tripInv s →
      tripInv (runCreates s inps)
      ∧ (runCreates s inps).cap = s.cap
      ∧ (runCreates s inps).tripId = s.tripId := by
  induction inps with
  | nil => exact fun s h => ⟨h, rfl, rfl⟩
  | cons i rest ih =>
    intro s h
    have hstep : runCreates s (i :: rest) = runCreates (createReservation s i).1 rest := rfl
    have hrec := ih (createReservation s i).1 (createReservation_inv s i h)
    have hf := createReservation_fields s i
    exact ⟨hstep ▸ hrec.1, by rw [hstep, hrec.2.1, hf.1], by rw [hstep, hrec.2.2, hf.2]⟩

/-- C1: starting from an empty trip, any serialized sequence of
createReservation calls (and the trip row lock serializes all writers of a
trip) keeps the active PASSENGER seat sum at or below min(templateCapacity,
6): each create recomputes availability under the lock, counting a
reservation as its roster size if present, else its nonzero declared seats,
else 1, and rejects a PASSENGER request whose seats exceed it.  A PACKAGE
creation never changes the computed availability. -/
theorem c1_no_oversell (ts : TripStatus) (cap tid n0 : ℕ)
    (inps : List ReserveInput) :
    activeSeats tid (runCreates ⟨ts, cap, tid, [], n0⟩ inps).reservations
      ≤ effectiveCapacity cap
    ∧ ∀ (s : TripState) (nm det : String) (pm : PayMethod) (sf : SeatsField)
        (names : List String),
        computeAvailable s.cap s.tripId
            ((createReservation s
              (ReserveInput.mk nm RType.PACKAGE det pm sf names)).1).reservations
          = computeAvailable s.cap s.tripId s.reservations := by
  constructor
  · have h0 : tripInv ⟨ts, cap, tid, [], n0⟩ := by
      rw [tripInv]
      show (0 : ℚ) ≤ effectiveCapacity cap
      rw [effectiveCapacity]
      exact le_min (by positivity) (by norm_num)
    have hrun := runCreates_inv inps ⟨ts, cap, tid, [], n0⟩ h0
    have hmain := hrun.1
    rw [tripInv, hrun.2.1, hrun.2.2] at hmain
    exact hmain
  · intro s nm det pm sf names
    rcases createReservation_spec s (ReserveInput.mk nm RType.PACKAGE det pm sf names)
      with he | ⟨q, rc, _, _, _, _, he⟩
    · rw [he]
    · rw [he]
      show computeAvailable s.cap s.tripId
          ({ id := s.nextId, tripId := s.tripId, rtype := RType.PACKAGE, seats := q,
             status := initialStatus pm, paymentMethod := pm, rosterCount := rc,
             paidAt := none, stripeSessionId := none,
             stripePaymentIntentId := none } :: s.reservations)
          = computeAvailable s.cap s.tripId s.reservations
      rw [computeAvailable, computeAvailable, activeSeats_cons, if_pos rfl]
      have hcs : caseSeat
          { id := s.nextId, tripId := s.tripId, rtype := RType.PACKAGE, seats := q,
            status := initialStatus pm, paymentMethod := pm, rosterCount := rc,
            paidAt := none, stripeSessionId := none,
            stripePaymentIntentId := none } = 0 := by
        rw [caseSeat, if_neg]
        intro hc
        exact RType.noConfusion hc.1
      rw [hcs, zero_add]

/-! ### C8: concurrent ticket issuance -/

/-- The ticket cell is write-once: a stored code survives any caller step
(the UNIQUE KEY makes every later insert fail instead of replacing it). -/
theorem schedStep_cell_mono (s : TicketSystem) (i : ℕ) (k : String)
    (h : s.cell = some k) : (schedStep s i).cell = some k := by
  rcases hc : s.callers[i]? with _ | c
  · rw [schedStep, hc]; exact h
  · rw [schedStep, hc]
    rcases hp : c.phase with _ | _ | k0 <;> simp [ticketStep, hp, h]

/-- A stored code survives a whole schedule. -/
theorem runSched_cell_mono (sched : List ℕ) :
    ∀ (s : TicketSystem) (k : String), s.cell = some k →
      (runSched s sched).cell = some k := by
  induction sched with
  | nil => exact fun s k h => h
  | cons i rest ih =>
    intro s k h
    exact ih (schedStep s i) k (schedStep_cell_mono s i k h)

/-- One caller step preserves the race invariant. -/
theorem schedStep_inv (s : TicketSystem) (i : ℕ) (h : ticketInv s) :
    ticketInv (schedStep s i) := by
  rcases hc : s.callers[i]? with _ | c
  · rw [schedStep, hc]; exact h
  · have hlen : i < s.callers.length := by
      rcases List.getElem?_eq_some.mp hc with ⟨hl, _⟩
      exact hl
    have hci : s.callers.get ⟨i, hlen⟩ = c := by
      rcases List.getElem?_eq_some.mp hc with ⟨_, he⟩
      exact he
    have hstep : schedStep s i =
        { cell := (ticketStep s.cell c).1
          callers := s.callers.set i (ticketStep s.cell c).2 } := by
      rw [schedStep, hc]
    rw [hstep]
    intro j hj k hk
    have hjlen : j < s.callers.length := by simpa using hj
    by_cases hji : j = i
    · subst hji
      have hset : (s.callers.set j (ticketStep s.cell c).2).get ⟨j, hj⟩
          = (ticketStep s.cell c).2 := by
        simp
      rw [hset] at hk
      rcases hp : c.phase with _ | _ | k0 <;> rcases hcell : s.cell with _ | k1 <;>
        simp only [ticketStep, hp, hcell] at hk ⊢
      · simp at hk
      · simp at hk
        rw [hk]
      · simp at hk
        rw [hk]
      · simp at hk
        rw [hk]
      · have hik := h j hlen k0 (by rw [hci]; exact hp)
        rw [hcell] at hik
        exact absurd hik (by simp)
      · simp at hk
        have hik := h j hlen k0 (by rw [hci]; exact hp)
        rw [hcell] at hik
        rw [Option.some.inj hik, hk]
    · have hset : (s.callers.set i (ticketStep s.cell c).2).get ⟨j, hj⟩
          = s.callers.get ⟨j, hjlen⟩ := by
        simp [List.getElem_set_ne, Ne.symm hji]
      rw [hset] at hk
      have hcell := h j hjlen k hk
      have hmono := schedStep_cell_mono s i k hcell
      rw [hstep] at hmono
      exact hmono

/-- The race invariant holds after any schedule. -/
theorem runSched_inv (sched : List ℕ) :
    ∀ s : TicketSystem, ticketInv s → ticketInv (runSched s sched) := by
  induction sched with
  | nil => exact fun s h => h
  | cons i rest ih => exact fun s h => ih (schedStep s i) (schedStep_inv s i h)

/-- Splitting a schedule. -/
theorem runSched_append (pre suf : List ℕ) :
    ∀ s : TicketSystem, runSched s (pre ++ suf) = runSched (runSched s pre) suf := by
  induction pre with
  | nil => exact fun s => rfl
  | cons i rest ih => exact fun s => ih (schedStep s i)

/-- C8: starting with no ticket row and any number of racing
ensureTicketForReservation callers, after any interleaving of their database
accesses every finished caller observed exactly the code in the ticket cell,
hence all finished callers observed the same code; and the cell is
write-once — once some prefix of the schedule has stored a code, the whole
schedule ends with that same single row (the UNIQUE KEY turns later inserts
into re-reads), so at most one ticket row is ever created. -/
theorem c8_concurrent_ticket_unique (callers : List TicketCaller) (sched : List ℕ)
    (hstart : ∀ c ∈ callers, c.phase = CallerPhase.start) :
    (∀ c ∈ (runSched ⟨none, callers⟩ sched).callers, ∀ k : String,
        c.phase = CallerPhase.done k →
          (runSched ⟨none, callers⟩ sched).cell = some k)
    ∧ (∀ c c', c ∈ (runSched ⟨none, callers⟩ sched).callers →
        c' ∈ (runSched ⟨none, callers⟩ sched).callers →
        ∀ k k' : String, c.phase = CallerPhase.done k →
          c'.phase = CallerPhase.done k' → k = k')
    ∧ (∀ (k : String) (pre suf : List ℕ), sched = pre ++ suf →
        (runSched ⟨none, callers⟩ pre).cell = some k →
        (runSched ⟨none, callers⟩ sched).cell = some k) := by
  have hinv0 : ticketInv ⟨none, callers⟩ := by
    intro j hj k hk
    have hmem : (⟨none, callers⟩ : TicketSystem).callers.get ⟨j, hj⟩ ∈ callers :=
      List.get_mem _ _ _
    rw [hstart _ hmem] at hk
    exact absurd hk (by simp)
  have hinv := runSched_inv sched ⟨none, callers⟩ hinv0
  have hmem : ∀ c ∈ (runSched ⟨none, callers⟩ sched).callers, ∀ k : String,
      c.phase = CallerPhase.done k →
        (runSched ⟨none, callers⟩ sched).cell = some k := by
    intro c hcmem k hk
    rcases List.mem_iff_get.mp hcmem with ⟨j, hje⟩
    exact hinv j.1 j.2 k (by rw [hje]; exact hk)
  refine ⟨hmem, ?_, ?_⟩
  · intro c c' hc hc' k k' hk hk'
    have h1 := hmem c hc k hk
    have h2 := hmem c' hc' k' hk'
    rw [h1] at h2
    exact Option.some.inj h2
  · intro k pre suf hsched hpre
    rw [hsched, runSched_append]
    exact runSched_cell_mono suf _ k hpre

/-- C8 witness: two racing callers, interleaved fetch-fetch-insert-resolve;
both finish with the single stored code. -/
theorem c8_concurrent_ticket_unique_witness :
    (∀ c ∈ (runSched ⟨none, [⟨"A1B2C3", CallerPhase.start⟩,
        ⟨"D4E5F6", CallerPhase.start⟩]⟩ [0, 1, 1, 0]).callers, ∀ k : String,
        c.phase = CallerPhase.done k →
          (runSched ⟨none, [⟨"A1B2C3", CallerPhase.start⟩,
            ⟨"D4E5F6", CallerPhase.start⟩]⟩ [0, 1, 1, 0]).cell = some k)
    ∧ (∀ c c', c ∈ (runSched ⟨none, [⟨"A1B2C3", CallerPhase.start⟩,
          ⟨"D4E5F6", CallerPhase.start⟩]⟩ [0, 1, 1, 0]).callers →
        c' ∈ (runSched ⟨none, [⟨"A1B2C3", CallerPhase.start⟩,
          ⟨"D4E5F6", CallerPhase.start⟩]⟩ [0, 1, 1, 0]).callers →
        ∀ k k' : String, c.phase = CallerPhase.done k →
          c'.phase = CallerPhase.done k' → k = k') :=
  ⟨(c8_concurrent_ticket_unique
      [⟨"A1B2C3", CallerPhase.start⟩, ⟨"D4E5F6", CallerPhase.start⟩]
      [0, 1, 1, 0] (by decide)).1,
   (c8_concurrent_ticket_unique
      [⟨"A1B2C3", CallerPhase.start⟩, ⟨"D4E5F6", CallerPhase.start⟩]
      [0, 1, 1, 0] (by decide)).2.1⟩

/-! ### C7: trip disable/enable -/

/-- The upsert touches only the trips table. -/
theorem upsertTrip_preserves (db : AdminDb) (tId d : ℕ) (st : TripStatus)
    (notes : Option String) :
    (upsertTrip db tId d st notes).reservations = db.reservations
    ∧ (upsertTrip db tId d st notes).payments = db.payments := by
  rw [upsertTrip]
  split_ifs <;> exact ⟨rfl, rfl⟩

/-- After the upsert, every trip row of the (template, date) key carries the
requested status. -/
theorem upsertTrip_status (db : AdminDb) (tId d : ℕ) (st : TripStatus)
    (notes : Option String) :
    ∀ t ∈ (upsertTrip db tId d st notes).trips,
      t.templateId = tId → t.tripDate = d → t.status = st := by
  rw [upsertTrip]
  split_ifs with hany
  · intro t ht h1 h2
    rcases List.mem_map.mp ht with ⟨x, hx, hxe⟩
    by_cases hm : x.templateId = tId ∧ x.tripDate = d
    · rw [if_pos hm] at hxe
      rw [← hxe]
    · rw [if_neg hm] at hxe
      rw [← hxe] at h1 h2
      exact absurd ⟨h1, h2⟩ hm
  · intro t ht h1 h2
    rcases List.mem_append.mp ht with hmem | hmem
    · exfalso
      apply hany
      rw [List.any_eq_true]
      exact ⟨t, hmem, by simp [h1, h2]⟩
    · have : t = ⟨db.nextTripId, tId, d, st, notes⟩ := by simpa using hmem
      rw [this]

/-- The upsert always leaves a trip row for its key, so the re-read of the
trip id cannot fail. -/
theorem findTripId_upsertTrip (db : AdminDb) (tId d : ℕ) (st : TripStatus)
    (notes : Option String) :
    ∃ tid : ℕ, findTripId (upsertTrip db tId d st notes) tId d = some tid := by
  have hex : ∃ x ∈ (upsertTrip db tId d st notes).trips,
      x.templateId = tId ∧ x.tripDate = d := by
    rw [upsertTrip]
    split_ifs with hany
    · rcases List.any_eq_true.mp hany with ⟨t, ht, hp⟩
      have hp2 : t.templateId = tId ∧ t.tripDate = d := by simpa using hp
      exact ⟨{ t with status := st, notes := notes },
        List.mem_map.mpr ⟨t, ht, by rw [if_pos hp2]⟩, hp2.1, hp2.2⟩
    · exact ⟨⟨db.nextTripId, tId, d, st, notes⟩,
        List.mem_append.mpr (Or.inr (by simp)), rfl, rfl⟩
  rcases hex with ⟨x, hx, hpx⟩
  rcases hfind : (upsertTrip db tId d st notes).trips.find?
      (fun t => t.templateId = tId ∧ t.tripDate = d) with _ | t
  · exact absurd (by simpa using List.find?_eq_none.mp hfind x hx) (by simp [hpx])
  · exact ⟨t.id, by rw [findTripId, hfind]; rfl⟩

/-- The reservation status rewrite of the disable path changes neither ids
nor trip ids, so the payments join sees the same reservations. -/
theorem any_join_cancel (l : List Reservation) (tid pid : ℕ) :
    ((l.map (fun r =>
        if pendingOnTrip tid r then { r with status := RStatus.CANCELLED } else r)).any
      (fun r => r.id = pid ∧ r.tripId = tid))
    = (l.any (fun r => r.id = pid ∧ r.tripId = tid)) := by
  induction l with
  | nil => rfl
  | cons x xs ih =>
    simp only [List.map_cons, List.any_cons, ih]
    by_cases hx : pendingOnTrip tid x
    · rw [if_pos hx]
    · rw [if_neg hx]

/-- What the disable transaction commits, given the trip id the re-read
found: the upserted trips table, the pending reservations of that trip
cancelled, the PENDING payments joined to that trip rejected, and the two
affected-row counts. -/
theorem tripSetEnabled_disable_eq (db : AdminDb) (tId d : ℕ)
    (notes : Option String) (tid : ℕ)
    (htid : findTripId (upsertTrip db tId d TripStatus.CANCELLED notes) tId d
      = some tid) :
    tripSetEnabled db tId d false notes =
      ({ upsertTrip db tId d TripStatus.CANCELLED notes with
           reservations := db.reservations.map (fun r =>
             if pendingOnTrip tid r then { r with status := RStatus.CANCELLED } else r)
           payments := db.payments.map (fun p =>
             if p.status = "PENDING" ∧ db.reservations.any
                 (fun r => r.id = p.reservationId ∧ r.tripId = tid) then
               { p with status := "REJECTED" } else p) },
       (db.reservations.filter (fun r => pendingOnTrip tid r)).length,
       (db.payments.filter (fun p => p.status = "PENDING" ∧ db.reservations.any
           (fun r => r.id = p.reservationId ∧ r.tripId = tid))).length) := by
  have hres := (upsertTrip_preserves db tId d TripStatus.CANCELLED notes).1
  have hpay := (upsertTrip_preserves db tId d TripStatus.CANCELLED notes).2
  simp only [tripSetEnabled]
  rw [if_neg (show ¬ ((false : Bool) = true) by decide)]
  simp only [hres, hpay, any_join_cancel]
  rw [htid]
  simp

/-- What the enable transaction commits: just the trip upsert to OPEN, with
zero affected-row counts. -/
theorem tripSetEnabled_enable_eq (db : AdminDb) (tId d : ℕ)
    (notes : Option String) (tid : ℕ)
    (htid : findTripId (upsertTrip db tId d TripStatus.OPEN notes) tId d
      = some tid) :
    tripSetEnabled db tId d true notes
      = (upsertTrip db tId d TripStatus.OPEN notes, 0, 0) := by
  simp only [tripSetEnabled]
  rw [if_pos trivial]
  rw [htid]
  simp

/-- C7: disabling a trip for a date is one all-or-nothing transaction that
sets the trip row to CANCELLED, cancels exactly the reservations of that trip
still in {PENDING_PAYMENT, PAY_AT_BOARDING} (every other reservation,
including PAID ones, is untouched), marks exactly the trip's PENDING payment
rows REJECTED, and returns the two affected-row counts; re-enabling sets the
trip row back to OPEN and changes no reservation and no payment row. -/
theorem c7_trip_disable_enable (db : AdminDb) (templateId tripDate : ℕ)
    (notes : Option String) :
    (∃ tid : ℕ,
      findTripId (upsertTrip db templateId tripDate TripStatus.CANCELLED notes)
          templateId tripDate = some tid
      ∧ (∀ t ∈ (tripSetEnabled db templateId tripDate false notes).1.trips,
          t.templateId = templateId → t.tripDate = tripDate →
            t.status = TripStatus.CANCELLED)
      ∧ (tripSetEnabled db templateId tripDate false notes).1.reservations.length
          = db.reservations.length
      ∧ (∀ (j : ℕ) (r : Reservation), db.reservations[j]? = some r →
          (pendingOnTrip tid r →
            (tripSetEnabled db templateId tripDate false notes).1.reservations[j]?
              = some { r with status := RStatus.CANCELLED })
          ∧ (¬ pendingOnTrip tid r →
            (tripSetEnabled db templateId tripDate false notes).1.reservations[j]?
              = some r))
      ∧ (tripSetEnabled db templateId tripDate false notes).2.1
          = (db.reservations.filter (fun r => pendingOnTrip tid r)).length
      ∧ (tripSetEnabled db templateId tripDate false notes).1.payments.length
          = db.payments.length
      ∧ (∀ (j : ℕ) (p : PaymentRow), db.payments[j]? = some p →
          (payPendingOnTrip db tid p →
            (tripSetEnabled db templateId tripDate false notes).1.payments[j]?
              = some { p with status := "REJECTED" })
          ∧ (¬ payPendingOnTrip db tid p →
            (tripSetEnabled db templateId tripDate false notes).1.payments[j]?
              = some p))
      ∧ (tripSetEnabled db templateId tripDate false notes).2.2
          = (db.payments.filter (fun p => payPendingOnTrip db tid p)).length)
    ∧ (∀ t ∈ (tripSetEnabled db templateId tripDate true notes).1.trips,
        t.templateId = templateId → t.tripDate = tripDate →
          t.status = TripStatus.OPEN)
    ∧ (tripSetEnabled db templateId tripDate true notes).1.reservations
        = db.reservations
    ∧ (tripSetEnabled db templateId tripDate true notes).1.payments = db.payments
    ∧ (tripSetEnabled db templateId tripDate true notes).2 = (0, 0) := by
  obtain ⟨tidC, htidC⟩ :=
    findTripId_upsertTrip db templateId tripDate TripStatus.CANCELLED notes
  obtain ⟨tidO, htidO⟩ :=
    findTripId_upsertTrip db templateId tripDate TripStatus.OPEN notes
  have hdis := tripSetEnabled_disable_eq db templateId tripDate notes tidC htidC
  have hen := tripSetEnabled_enable_eq db templateId tripDate notes tidO htidO
  have hcond : ∀ p : PaymentRow,
      (p.status = "PENDING" ∧ (db.reservations.any
          (fun r => r.id = p.reservationId ∧ r.tripId = tidC)) = true)
        ↔ payPendingOnTrip db tidC p := by
    intro p
    unfold payPendingOnTrip
    constructor
    · rintro ⟨h1, h2⟩
      exact ⟨h1, by simpa using List.any_eq_true.mp h2⟩
    · rintro ⟨h1, h2⟩
      refine ⟨h1, List.any_eq_true.mpr ?_⟩
      rcases h2 with ⟨r, hr, hid, htr⟩
      exact ⟨r, hr, by simp [hid, htr]⟩
  refine ⟨⟨tidC, htidC, ?_, ?_, ?_, ?_, ?_, ?_, ?_⟩, ?_, ?_, ?_, ?_⟩
  · rw [hdis]
    exact upsertTrip_status db templateId tripDate TripStatus.CANCELLED notes
  · rw [hdis]
    simp
  · intro j r hr
    rw [hdis]
    constructor <;> intro hp <;> simp only [List.getElem?_map, hr, Option.map_some']
    · rw [if_pos hp]
    · rw [if_neg hp]
  · rw [hdis]
  · rw [hdis]
    simp
  · intro j p hpj
    rw [hdis]
    constructor <;> intro hp <;> simp only [List.getElem?_map, hpj, Option.map_some']
    · rw [if_pos ((hcond p).mpr hp)]
    · rw [if_neg (fun hc => hp ((hcond p).mp hc))]
  · rw [hdis]
    show (db.payments.filter _).length = (db.payments.filter _).length
    congr 1
    apply List.filter_congr
    intro p _
    exact decide_eq_decide.mpr (hcond p)
  · rw [hen]
    exact upsertTrip_status db templateId tripDate TripStatus.OPEN notes
  · rw [hen]
    exact (upsertTrip_preserves db templateId tripDate TripStatus.OPEN notes).1
  · rw [hen]
    exact (upsertTrip_preserves db templateId tripDate TripStatus.OPEN notes).2
  · rw [hen]

/-- C7 witness: disabling the sample trip reports exactly 3 cancelled
reservations and leaves the PAID one untouched. -/
theorem c7_trip_disable_enable_witness :
    (tripSetEnabled sampleAdminDb 1 5 false none).2.1 = 3
    ∧ (tripSetEnabled sampleAdminDb 1 5 false none).1.reservations[3]?
        = some ⟨4, 7, RType.PASSENGER, 1, RStatus.PAID, PayMethod.TAQUILLA,
            none, some 9, none, none⟩ := by
  obtain ⟨⟨tid, htid, h1, h2, hpt, hcnt, h3, h4, h5⟩, _, _, _, _⟩ :=
    c7_trip_disable_enable sampleAdminDb 1 5 none
  have h7 : tid = 7 := by
    have he : findTripId (upsertTrip sampleAdminDb 1 5 TripStatus.CANCELLED none) 1 5
        = some 7 := by rfl
    rw [he] at htid
    exact (Option.some.inj htid).symm
  subst h7
  refine ⟨?_, ?_⟩
  · rw [hcnt]
    rfl
  · exact (hpt 3 _ rfl).2 (by decide)

end Transport
